import Mathlib

/-!
# Shallow embedding of the skyweb airspace geometry pipeline

This file embeds, in Lean 4, the parts of the skyweb repository that the
claims C1–C10 are about:

* `core/services/route_corrector.py` — altitude assignment and synthesized
  CLIMB/DESC intermediate waypoints (real arithmetic modelled over `ℚ`;
  the transcendental haversine distance is modelled as an explicit function
  parameter `hav`, since every claim about the corrector is conditional on
  the computed segment distance, never on a particular trigonometric value);
* `core/persistence/spatialite/airspace_query.py` — intersection
  classification, segment/corridor queries (SQL row sets modelled as lists
  of records carrying the outcome of the spatial predicates), and the
  three-tier service resolution;
* `core/persistence/spatialite/db_manager.py` — the not-ready error path;
* `core/etl/spatialite_builder.py` — the materialized view
  `airspace_spatial_indexed`;
* `core/etl/tile_generator.py` — slippy-map tile bounding boxes (latitude
  edges kept in the exact symbolic form `atan (sinh (c·π))`, with the
  rational coefficient `c` computed by the embedded code) and the
  sparse-output rule.

Python `float` arithmetic is modelled by exact rational arithmetic; Python
`round` (round-half-to-even) and `int` (truncation) are modelled exactly.
-/

namespace SkyWeb

/-! ## Python numeric primitives -/

/-- Python `round` on a rational: round half to even (banker's rounding),
as CPython does on floats. -/
def pyRound (q : ℚ) : ℤ :=
  let f : ℤ := ⌊q⌋
  let r : ℚ := q - f
  if r < 1/2 then f
  else if 1/2 < r then f + 1
  else if f % 2 = 0 then f else f + 1

/-- Python `int()` on a rational: truncation toward zero. -/
def pyInt (q : ℚ) : ℤ :=
  if 0 ≤ q then ⌊q⌋ else -⌊-q⌋

/-- Python `abs()` on a rational. -/
def pyAbs (q : ℚ) : ℚ :=
  if q < 0 then -q else q

/-! ## route_corrector.py -/

/-- `EARTH_RADIUS_NM = 3440.065` (only documentary here: the haversine
distance itself is a model parameter). -/
def EARTH_RADIUS_NM : ℚ := 3440065/1000

/-- `METERS_TO_FEET = 3.28084` -/
def METERS_TO_FEET : ℚ := 328084/100000

/-- An input waypoint dict `{name, latitude, longitude, altitude_m}`. -/
structure WaypointIn where
  name : String
  latitude : ℚ
  longitude : ℚ
  altitude_m : ℚ
  deriving DecidableEq, Repr

/-- `CorrectedWaypoint` dataclass. -/
structure CorrectedWaypoint where
  name : String
  latitude : ℚ
  longitude : ℚ
  altitude_ft : ℚ
  altitude_source : String
  is_intermediate : Bool := false
  original_altitude_m : ℚ := 0
  deriving DecidableEq, Repr

/-- Body of the loop of `_assign_altitudes` for index `i` out of `total`
waypoints: departure/arrival get ground elevation + pattern altitude when
the ground elevation is known, otherwise the imported (converted) altitude
with a `min_alt_ft` floor below 50 ft; interior waypoints keep the imported
altitude.  The stored altitude is `round`ed as in the Python dataclass
construction. -/
def assignWp (total : ℕ) (dep_ground_ft arr_ground_ft : Option ℚ)
    (pattern_alt_ft min_alt_ft : ℤ) (i : ℕ) (wp : WaypointIn) :
    CorrectedWaypoint :=
  let alt_m := wp.altitude_m
  let alt_ft := alt_m * METERS_TO_FEET
  let (source, alt_ft) :=
    if i = 0 then
      ("departure",
        match dep_ground_ft with
        | some g => g + pattern_alt_ft
        | none => if alt_ft < 50 then (min_alt_ft : ℚ) else alt_ft)
    else if i = total - 1 then
      ("arrival",
        match arr_ground_ft with
        | some g => g + pattern_alt_ft
        | none => if alt_ft < 50 then (min_alt_ft : ℚ) else alt_ft)
    else
      ("segment", alt_ft)
  { name := wp.name
    latitude := wp.latitude
    longitude := wp.longitude
    altitude_ft := (pyRound alt_ft : ℚ)
    altitude_source := source
    original_altitude_m := alt_m }

/-- The `for i, wp in enumerate(waypoints)` loop of `_assign_altitudes`,
carrying the running index. -/
def assignGo (total : ℕ) (dep arr : Option ℚ) (p m : ℤ) :
    ℕ → List WaypointIn → List CorrectedWaypoint
  | _, [] => []
  | i, wp :: rest => assignWp total dep arr p m i wp :: assignGo total dep arr p m (i + 1) rest

/-- `_assign_altitudes(waypoints, dep_ground_ft, arr_ground_ft,
pattern_alt_ft, min_alt_ft)`. -/
def assign_altitudes (waypoints : List WaypointIn) (dep arr : Option ℚ)
    (pattern_alt_ft min_alt_ft : ℤ) : List CorrectedWaypoint :=
  assignGo waypoints.length dep arr pattern_alt_ft min_alt_ft 0 waypoints

/-- `_calc_intermediate(start, end, target_alt, is_last_segment,
climb_rate_fpm, ground_speed_kt)`.  `hav` stands for `_haversine_nm`
(a transcendental function of the four coordinates, taken here as a
parameter). -/
def calc_intermediate (hav : ℚ → ℚ → ℚ → ℚ → ℚ)
    (start end_ : CorrectedWaypoint) (target_alt : ℚ)
    (is_last_segment : Bool) (climb_rate_fpm ground_speed_kt : ℤ) :
    Option CorrectedWaypoint :=
  let alt_diff := pyAbs (end_.altitude_ft - start.altitude_ft)
  if alt_diff < 100 then none
  else
    let time_min := alt_diff / (climb_rate_fpm : ℚ)
    let climb_dist_nm := ((ground_speed_kt : ℚ) * time_min) / 60
    let total_dist_nm := hav start.latitude start.longitude end_.latitude end_.longitude
    if total_dist_nm ≤ climb_dist_nm then none
    else
      let ratio := if is_last_segment then 1 - climb_dist_nm / total_dist_nm
                   else climb_dist_nm / total_dist_nm
      let lat := start.latitude + (end_.latitude - start.latitude) * ratio
      let lon := start.longitude + (end_.longitude - start.longitude) * ratio
      let direction := if start.altitude_ft < end_.altitude_ft then "CLIMB" else "DESC"
      let name :=
        if is_last_segment ∧ direction = "DESC" then
          "DESC_" ++ toString (pyInt end_.altitude_ft)
        else
          direction ++ "_" ++ toString (pyInt target_alt)
      some
        { name := name
          latitude := lat
          longitude := lon
          altitude_ft := (pyRound target_alt : ℚ)
          altitude_source := if start.altitude_ft < end_.altitude_ft then
              "intermediate_climb" else "intermediate_desc"
          is_intermediate := true
          original_altitude_m := target_alt / METERS_TO_FEET }

/-- `_insert_intermediates(base, climb_rate_fpm, ground_speed_kt)`:
between each consecutive pair, append the optional intermediate waypoint
(`if intermediate is not None: enhanced.append(...)` is rendered as
appending the option's `toList`); on the last segment (the pair followed
by nothing) the target altitude is the current waypoint's, otherwise the
next waypoint's. -/
def insert_intermediates (hav : ℚ → ℚ → ℚ → ℚ → ℚ)
    (climb_rate_fpm ground_speed_kt : ℤ) :
    List CorrectedWaypoint → List CorrectedWaypoint
  | [] => []
  | [w] => [w]
  | w :: next :: rest =>
      let is_last_segment := rest.isEmpty
      let target_alt := if is_last_segment then w.altitude_ft else next.altitude_ft
      w :: ((calc_intermediate hav w next target_alt is_last_segment
              climb_rate_fpm ground_speed_kt).toList
        ++ insert_intermediates hav climb_rate_fpm ground_speed_kt (next :: rest))

/-- `correct_route(waypoints, dep_ground_ft, arr_ground_ft, climb_rate_fpm,
ground_speed_kt, pattern_alt_ft, min_alt_ft)`. -/
def correct_route (hav : ℚ → ℚ → ℚ → ℚ → ℚ) (waypoints : List WaypointIn)
    (dep_ground_ft arr_ground_ft : Option ℚ)
    (climb_rate_fpm ground_speed_kt pattern_alt_ft min_alt_ft : ℤ) :
    List CorrectedWaypoint :=
  if waypoints.length < 2 then []
  else
    insert_intermediates hav climb_rate_fpm ground_speed_kt
      (assign_altitudes waypoints dep_ground_ft arr_ground_ft pattern_alt_ft min_alt_ft)

/-! ## airspace_query.py — classification -/

/-- `IntersectionType` enum (the subset used by the query service). -/
inductive IntersectionType where
  | INSIDE
  | CROSSES
  | ENTRY
  | EXIT
  | NEARBY
  deriving DecidableEq, Repr

/-- The row fetched by `_classify_intersection`: the outcomes of
`ST_Crosses(MakeLine(p1, p2), geometry)`, `ST_Contains(geometry, p1)` and
`ST_Contains(geometry, p2)` for the candidate part's geometry.  A
`LINESTRING(p1, p2)` and `LINESTRING(p2, p1)` are the same point set, so
reversing the segment keeps `crosses` and swaps the two containment
flags. -/
structure ClassifyRow where
  crosses : Bool
  start_inside : Bool
  end_inside : Bool
  deriving DecidableEq, Repr

/-- `_classify_intersection`: `None` row (unknown part) defaults to
CROSSES; otherwise the fixed priority order INSIDE / CROSSES / EXIT /
ENTRY / default CROSSES. -/
def classify_intersection (row : Option ClassifyRow) : IntersectionType :=
  match row with
  | none => .CROSSES
  | some r =>
      if r.start_inside && r.end_inside then .INSIDE
      else if r.crosses then .CROSSES
      else if r.start_inside then .EXIT
      else if r.end_inside then .ENTRY
      else .CROSSES

/-- The same row with the segment's endpoints reversed: containment flags
swap, the crossing predicate is unchanged (same line geometry). -/
def reverseSegRow (r : ClassifyRow) : ClassifyRow :=
  ⟨r.crosses, r.end_inside, r.start_inside⟩

/-! ## airspace_query.py — segment and corridor queries -/

/-- `_EXCLUDED_TYPES`: SIA airspace types excluded from VFR analysis. -/
def EXCLUDED_TYPES : List String :=
  ["CTL", "ACC", "UAC", "UIR", "UTA", "FRA", "LTA", "OCA"]

/-- One row of `airspace_spatial_indexed` as seen by `_query_segment` /
`_query_corridor` for one fixed leg: alongside the denormalized columns it
carries the outcomes of the two spatial predicates for that leg
(`ST_Intersects(geometry, line)` and
`ST_Intersects(geometry, ST_Buffer(line, buffer_deg))`). -/
structure SegRow where
  espace_nom : String
  espace_type : String
  classe : String
  altitude_floor_ft_amsl : ℚ
  altitude_ceiling_ft_amsl : ℚ
  partie_pk : ℕ
  volume_pk : ℕ
  espace_pk : ℕ
  intersects_line : Bool
  intersects_buffer : Bool
  deriving DecidableEq, Repr

/-- The rows selected by `_query_segment`'s SQL plus the in-loop
`_EXCLUDED_TYPES` skip: geometry intersects the line, the altitude band
contains `altitude_ft`, the type is not excluded. -/
def query_segment_rows (db : List SegRow) (altitude_ft : ℚ) : List SegRow :=
  (db.filter fun r =>
      r.intersects_line
        && decide (r.altitude_floor_ft_amsl ≤ altitude_ft)
        && decide (altitude_ft ≤ r.altitude_ceiling_ft_amsl)).filter
    fun r => !EXCLUDED_TYPES.contains r.espace_type

/-- The rows selected by `_query_corridor`: geometry intersects the
buffered corridor but NOT the line itself, same altitude band, same
type exclusion. -/
def query_corridor_rows (db : List SegRow) (altitude_ft : ℚ) : List SegRow :=
  (db.filter fun r =>
      r.intersects_buffer
        && !r.intersects_line
        && decide (r.altitude_floor_ft_amsl ≤ altitude_ft)
        && decide (altitude_ft ≤ r.altitude_ceiling_ft_amsl)).filter
    fun r => !EXCLUDED_TYPES.contains r.espace_type

/-- Identifiers (`espace_nom`, the `identifier` field of
`AirspaceIntersection`) of the direct-route results of a leg. -/
def query_segment_ids (db : List SegRow) (altitude_ft : ℚ) : List String :=
  (query_segment_rows db altitude_ft).map (·.espace_nom)

/-- Identifiers of the corridor (NEARBY) results of a leg. -/
def query_corridor_ids (db : List SegRow) (altitude_ft : ℚ) : List String :=
  (query_corridor_rows db altitude_ft).map (·.espace_nom)

/-! ## airspace_query.py — service resolution (`_get_services`) -/

/-- `s1.startsWith`-style check on character lists. -/
def charListStarts : List Char → List Char → Bool
  | [], _ => true
  | _ :: _, [] => false
  | a :: as, b :: bs => a == b && charListStarts as bs

/-- Whether `pat` occurs as a contiguous run inside the second list
(Python's `pat in s` on strings). -/
def subOccurs (pat : List Char) : List Char → Bool
  | [] => pat.isEmpty
  | c :: rest => charListStarts pat (c :: rest) || subOccurs pat rest

/-- Python `pat in s` substring test. -/
def strContainsSub (s pat : String) : Bool :=
  subOccurs pat.data s.data

/-- Python `c in s` single-character test. -/
def strContainsChar (s : String) (c : Char) : Bool :=
  s.data.contains c

/-- Python `s.upper()` / SQL `UPPER` for the ASCII names involved. -/
def strUpper (s : String) : String :=
  ⟨s.data.map Char.toUpper⟩

/-- Character-level worker for `pySplit`: `cur` holds the (reversed)
pending token. -/
def pySplitGo : List Char → List Char → List String
  | cur, [] => if cur.isEmpty then [] else [⟨cur.reverse⟩]
  | cur, c :: rest =>
      if c.isWhitespace then
        if cur.isEmpty then pySplitGo [] rest
        else ⟨cur.reverse⟩ :: pySplitGo [] rest
      else pySplitGo (c :: cur) rest

/-- Python `s.split()`: split on whitespace runs, no empty pieces. -/
def pySplit (s : String) : List String :=
  pySplitGo [] s.data

/-- `" ".join(...)`, used only by the claim-side split variant. -/
def joinSpace : List String → String
  | [] => ""
  | [s] => s
  | s :: rest => s ++ " " ++ joinSpace rest

/-- Python truthiness of an optional string: non-None and non-empty. -/
def truthyStr : Option String → Bool
  | none => false
  | some s => s ≠ ""

/-- One row of the `Service LEFT JOIN Frequence` queries of
`_get_services` (already in `ORDER BY f.pk` order): service columns plus
the frequency columns, NULL when the service has no frequency row. -/
structure SFRow where
  IndicLieu : String
  IndicService : String
  Frequence : Option String
  Espacement : Option String
  SecteurSituation : Option String
  EspaceRef : Option ℕ
  deriving DecidableEq, Repr

/-- `FrequencyInfo` contract. -/
structure FrequencyInfo where
  frequency_mhz : String
  spacing : Option String
  deriving DecidableEq, Repr

/-- `ServiceInfo` contract. -/
structure ServiceInfo where
  callsign : String
  service_type : String
  frequencies : List FrequencyInfo
  deriving DecidableEq, Repr

/-- Strategy 1 of `_get_services`: rows with `s.EspaceRef = espace_pk`. -/
def directRows (db : List SFRow) (espace_pk : ℕ) : List SFRow :=
  db.filter (·.EspaceRef == some espace_pk)

/-- Strategy 1 with the code's `if espace_pk is not None` guard: no direct
lookup without a primary key. -/
def stage1Rows (db : List SFRow) (espace_pk : Option ℕ) : List SFRow :=
  match espace_pk with
  | some pk => directRows db pk
  | none => []

/-- `"Information" if espace_type == "SIV" else "Approche"`. -/
def service_type_for (espace_type : Option String) : String :=
  if espace_type == some "SIV" then "Information" else "Approche"

/-- The sector filter of strategy 3:
`sector_filter in row["SecteurSituation"].upper()` (NULL sector columns
never match). -/
def sectorMatch (sector : String) (r : SFRow) : Bool :=
  match r.SecteurSituation with
  | some sit => strContainsSub (strUpper sit) sector
  | none => false

/-- The exact-name queries of strategies 2 and 3:
`UPPER(s.IndicLieu) = UPPER(?) AND s.IndicService = ?`. -/
def nameRows (db : List SFRow) (nom service_type : String) : List SFRow :=
  db.filter fun r =>
    strUpper r.IndicLieu == strUpper nom && r.IndicService == service_type

/-- Strategy 3's row selection once a sector suffix exists: all rows
under the parent name, preferring those whose sector qualifier contains
the suffix (`if sector_filter and all_rows: rows = [...]`), falling back
to all parent rows when none match (`if not rows: rows = all_rows`). -/
def stage3Rows (db : List SFRow) (parent service_type sector : String) :
    List SFRow :=
  let all_rows := nameRows db parent service_type
  let filtered := if !all_rows.isEmpty then all_rows.filter (sectorMatch sector) else []
  if !filtered.isEmpty then filtered else all_rows

/-- The dict key `f"{IndicLieu}:{IndicService}"`. -/
def svcKey (r : SFRow) : String :=
  r.IndicLieu ++ ":" ++ r.IndicService

/-- One iteration of the `services` dict-building loop: create the entry
on first sight of the key (insertion order preserved), then append the
frequency when the `Frequence` column is truthy. -/
def addServiceRow (acc : List (String × ServiceInfo)) (r : SFRow) :
    List (String × ServiceInfo) :=
  let key := svcKey r
  let acc :=
    if acc.any (·.1 == key) then acc
    else acc ++ [(key, ⟨r.IndicLieu, r.IndicService, []⟩)]
  match r.Frequence with
  | some f =>
      if f ≠ "" then
        acc.map fun p =>
          if p.1 == key then
            (p.1, { p.2 with frequencies := p.2.frequencies ++ [⟨f, r.Espacement⟩] })
          else p
      else acc
  | none => acc

/-- `list(services.values())` after the dict-building loop. -/
def buildServices (rows : List SFRow) : List ServiceInfo :=
  (rows.foldl addServiceRow []).map (·.2)

/-- `_get_services(conn, espace_pk, espace_nom, espace_type)`: three-tier
fallback.  Note that the code's sector split takes `parts[0]` — the FIRST
whitespace-separated token — as the parent name and `parts[-1].upper()` as
the sector suffix.  (An all-whitespace non-empty name would raise
`IndexError` in Python on `parts[0]`; here the split-less name is kept,
which skips strategy 3 — the claims never touch that input.) -/
def get_services (db : List SFRow) (espace_pk : Option ℕ)
    (espace_nom : Option String) (espace_type : Option String) :
    List ServiceInfo :=
  let rows1 := stage1Rows db espace_pk
  if rows1.isEmpty && truthyStr espace_nom
      && (espace_type == some "SIV" || espace_type == some "TMA") then
    let nom := espace_nom.getD ""
    let service_type := service_type_for espace_type
    let hasSpace := strContainsChar nom ' '
    let parts := pySplit nom
    let parent_name := if hasSpace then parts.headD nom else nom
    let sector_filter : Option String :=
      if hasSpace then some (strUpper (parts.getLastD nom)) else none
    let rows2 := nameRows db nom service_type
    if rows2.isEmpty && parent_name != nom then
      match sector_filter with
      | some sf => buildServices (stage3Rows db parent_name service_type sf)
      | none => buildServices (nameRows db parent_name service_type)
    else buildServices rows2
  else buildServices rows1

/-- The claim's (spec's) version of `_get_services`, differing from the
source only in strategy 3's split: the parent name is EVERYTHING BEFORE
THE LAST SPACE of the display name (the source takes the first token).
Kept only to compare against `get_services`. -/
def get_services_specSplit (db : List SFRow) (espace_pk : Option ℕ)
    (espace_nom : Option String) (espace_type : Option String) :
    List ServiceInfo :=
  let rows1 := stage1Rows db espace_pk
  if rows1.isEmpty && truthyStr espace_nom
      && (espace_type == some "SIV" || espace_type == some "TMA") then
    let nom := espace_nom.getD ""
    let service_type := service_type_for espace_type
    let hasSpace := strContainsChar nom ' '
    let parts := pySplit nom
    let parent_name := if hasSpace then joinSpace parts.dropLast else nom
    let sector_filter : Option String :=
      if hasSpace then some (strUpper (parts.getLastD nom)) else none
    let rows2 := nameRows db nom service_type
    if rows2.isEmpty && parent_name != nom then
      match sector_filter with
      | some sf => buildServices (stage3Rows db parent_name service_type sf)
      | none => buildServices (nameRows db parent_name service_type)
    else buildServices rows2
  else buildServices rows1

/-! ## db_manager.py — the not-ready error path -/

/-- The typed persistence errors relevant to the query path
(`core/persistence/errors.py`). -/
inductive PersistenceErr where
  | spatiaLiteNotReady (msg : String)
  | fileNotFound (msg : String)
  deriving DecidableEq, Repr

/-- `SpatiaLiteManager` state: the fields set by `download`/`use_local`
(`None` until one of them succeeds). -/
structure SpatiaLiteManager where
  local_path : Option String
  current_cycle : Option String
  deriving DecidableEq, Repr

/-- A freshly constructed manager (`__init__`): nothing attached. -/
def initManager : SpatiaLiteManager :=
  { local_path := none, current_cycle := none }

/-- `is_ready`: a local path is set and the file exists (`fsExists`
abstracts the filesystem). -/
def is_ready (fsExists : String → Bool) (m : SpatiaLiteManager) : Bool :=
  match m.local_path with
  | none => false
  | some p => fsExists p

/-- `get_connection`: raises `SpatiaLiteNotReadyError` unless ready;
otherwise opens a fresh read-only connection (modelled by its path). -/
def get_connection (fsExists : String → Bool) (m : SpatiaLiteManager) :
    Except PersistenceErr String :=
  if is_ready fsExists m then
    match m.local_path with
    | some p => .ok p
    | none => .error (.spatiaLiteNotReady
        "SpatiaLite database not available. Call download() or use_local() first.")
  else
    .error (.spatiaLiteNotReady
      "SpatiaLite database not available. Call download() or use_local() first.")

/-- `AirspaceQueryService.query_segment_airspaces`: acquire a connection
(propagating the not-ready error), run the query body on it.  `run`
abstracts `_query_segment` on an open connection. -/
def query_segment_airspaces (fsExists : String → Bool)
    (m : SpatiaLiteManager) (run : String → List SegRow) :
    Except PersistenceErr (List SegRow) := do
  let conn ← get_connection fsExists m
  pure (run conn)

/-- `AirspaceQueryService.analyze_route`: acquire one connection
(propagating the not-ready error), then analyze every leg on it.  `runLeg`
abstracts the per-leg direct+corridor queries. -/
def analyze_route (fsExists : String → Bool) (m : SpatiaLiteManager)
    (legs : List (ℕ × ℕ × ℤ)) (runLeg : String → ℕ × ℕ × ℤ → List SegRow × List SegRow) :
    Except PersistenceErr (List (List SegRow × List SegRow)) := do
  let conn ← get_connection fsExists m
  pure (legs.map (runLeg conn))

/-! ## spatialite_builder.py — the materialized view -/

/-- A row of `Espace`. -/
structure EspaceRow where
  pk : ℕ
  Nom : String
  TypeEspace : String
  Classe : String
  deriving DecidableEq, Repr

/-- A row of `Partie`. -/
structure PartieRow where
  pk : ℕ
  espace_pk : ℕ
  Nom : String
  deriving DecidableEq, Repr

/-- A row of `Volume` (the altitude columns are TEXT; the builder inserts
`""` for absent source fields, never SQL NULL). -/
structure VolumeRow where
  pk : ℕ
  partie_pk : ℕ
  PlancherVal : String
  PlafondVal : String
  HorCode : String
  deriving DecidableEq, Repr

/-- A row of `Geometrie` after `_build_spatial_geometries`: `geom` is
`None` when the WKT was empty or `GeomFromText` failed, otherwise the
native geometry value (abstracted as a string). -/
structure GeometrieRow where
  pk : ℕ
  partie_pk : ℕ
  geom : Option String
  deriving DecidableEq, Repr

/-- The value of one digit character. -/
def digitVal (c : Char) : ℕ := c.toNat - 48

/-- Decimal value of a digit run. -/
def natOfDigits (ds : List Char) : ℕ :=
  ds.foldl (fun a c => a * 10 + digitVal c) 0

/-- The discrete part of parsing a decimal numeric prefix: whether any
digit was found, the sign, the integral digits' value, the fractional
digits' value and their count. -/
structure DecParse where
  ok : Bool
  neg : Bool
  ip : ℕ
  fp : ℕ
  flen : ℕ
  deriving DecidableEq, Repr

/-- Parse the longest `[sign]digits[.digits]` prefix after leading
spaces. -/
def parseDec (s : String) : DecParse :=
  let cs := s.data.dropWhile (· == ' ')
  let neg := cs.headD ' ' == '-'
  let cs := if cs.headD ' ' == '-' || cs.headD ' ' == '+' then cs.tail else cs
  let ipd := cs.takeWhile Char.isDigit
  let rest := cs.dropWhile Char.isDigit
  let fpd := if rest.headD ' ' == '.' then rest.tail.takeWhile Char.isDigit else []
  { ok := !(ipd.isEmpty && fpd.isEmpty)
    neg := neg
    ip := natOfDigits ipd
    fp := natOfDigits fpd
    flen := fpd.length }

/-- SQLite `CAST(text AS REAL)` for the decimal forms occurring in the
altitude columns: skip leading spaces, optional sign, longest
`digits[.digits]` numeric prefix; no numeric prefix parses to `0.0`.
(Exponent notation does not occur in `PlancherVal`/`PlafondVal`.) -/
def castReal (s : String) : ℚ :=
  let d := parseDec s
  if !d.ok then 0
  else (if d.neg then -1 else 1) * ((d.ip : ℚ) + (d.fp : ℚ) / 10 ^ d.flen)

/-- `COALESCE(NULLIF(v, ''), d)` on the TEXT altitude columns. -/
def coalesceNullif (v d : String) : String :=
  if v = "" then d else v

/-- A row of the materialized view `airspace_spatial_indexed`. -/
structure AirspaceViewRow where
  partie_pk : ℕ
  espace_pk : ℕ
  espace_nom : String
  espace_type : String
  partie_nom : String
  volume_pk : ℕ
  altitude_floor_ft_amsl : ℚ
  altitude_ceiling_ft_amsl : ℚ
  classe : String
  horCode : String
  conversion_status : String
  geom_spatial : Option String
  deriving DecidableEq, Repr

/-- `_create_materialized_view`: the
`Partie JOIN Espace JOIN Volume JOIN Geometrie ... WHERE g.geom IS NOT
NULL` select, with
`CAST(COALESCE(NULLIF(PlancherVal, ''), '0') AS REAL)` for the floor and
`CAST(COALESCE(NULLIF(PlafondVal, ''), '99999') AS REAL)` for the
ceiling. -/
def materialized_view (espaces : List EspaceRow) (parties : List PartieRow)
    (volumes : List VolumeRow) (geometries : List GeometrieRow) :
    List AirspaceViewRow :=
  parties.flatMap fun p =>
    (espaces.filter (·.pk == p.espace_pk)).flatMap fun e =>
      (volumes.filter (·.partie_pk == p.pk)).flatMap fun v =>
        (geometries.filter (·.partie_pk == p.pk)).filterMap fun g =>
          g.geom.map fun gg =>
            { partie_pk := p.pk
              espace_pk := e.pk
              espace_nom := e.Nom
              espace_type := e.TypeEspace
              partie_nom := p.Nom
              volume_pk := v.pk
              altitude_floor_ft_amsl := castReal (coalesceNullif v.PlancherVal "0")
              altitude_ceiling_ft_amsl := castReal (coalesceNullif v.PlafondVal "99999")
              classe := e.Classe
              horCode := v.HorCode
              conversion_status := "ok"
              geom_spatial := some gg }

/-! ## tile_generator.py -/

/-- A tile bounding box.  The longitude edges are exact rationals.  The
latitude edges of the code are
`degrees(atan(sinh(π * (1 - 2*y/n))))`; the transcendental part is kept
symbolic and only the exact rational coefficient `1 - 2*y/n` (for the top
edge, `1 - 2*(y+1)/n` for the bottom) is computed, so the edge in degrees
is `(180/π) * atan (sinh (coeff * π))`. -/
structure TileBbox where
  lon_min : ℚ
  lat_min_coeff : ℚ
  lon_max : ℚ
  lat_max_coeff : ℚ
  deriving DecidableEq, Repr

/-- `tile_bbox(z, x, y)` (Slippy Map scheme, Web-Mercator inverse). -/
def tile_bbox (z x y : ℕ) : TileBbox :=
  let n : ℚ := 2 ^ z
  { lon_min := x / n * 360 - 180
    lat_min_coeff := 1 - 2 * (y + 1) / n
    lon_max := (x + 1) / n * 360 - 180
    lat_max_coeff := 1 - 2 * y / n }

/-- One GeoJSON feature of a tile (the row columns used by
`_query_tile`). -/
structure Feature where
  id : ℕ
  name : String
  type_ : String
  classe : String
  floor_ft : ℚ
  ceiling_ft : ℚ
  geometry : String
  deriving DecidableEq, Repr

/-- The `x`/`y` loop body of `_generate_zoom_level`: the tiles actually
written at zoom `z`, with their features.  `queryTile x y` abstracts
`_query_tile(conn, tile_bbox(z, x, y), type_filter, tolerance)`; a tile
is written only when its feature list is non-empty (`if features:`). -/
def written_tiles (queryTile : ℕ → ℕ → List Feature) (z : ℕ) :
    List (ℕ × ℕ × List Feature) :=
  (List.range (2 ^ z)).flatMap fun x =>
    (List.range (2 ^ z)).filterMap fun y =>
      let features := queryTile x y
      if features.isEmpty then none else some (x, y, features)

/-- `ZOOM_CONFIG`: `(zoom range, type allow-list or None, tolerance)`. -/
def ZOOM_CONFIG : List ((ℕ × ℕ) × Option (List String) × ℚ) :=
  [((0, 5), some ["FIR", "TMA"], 1/100),
   ((6, 8), some ["TMA", "CTR", "SIV", "D", "R", "P"], 1/1000),
   ((9, 12), none, 1/10000)]

/-- `generate_all`: every tile written across the zoom-band table.
`query z tf tol x y` abstracts `_query_tile` for zoom `z` with the band's
type filter and tolerance. -/
def generate_all_written
    (query : ℕ → Option (List String) → ℚ → ℕ → ℕ → List Feature) :
    List (ℕ × ℕ × ℕ × List Feature) :=
  ZOOM_CONFIG.flatMap fun cfg =>
    let ((z_min, z_max), type_filter, tolerance) := cfg
    (List.range (z_max + 1 - z_min)).flatMap fun dz =>
      let z := z_min + dz
      (written_tiles (query z type_filter tolerance) z).map
        fun t => (z, t.1, t.2.1, t.2.2)

/-! ## Theorems -/

/-- **C2** — For every candidate part and every segment (modelled by the
outcomes `c` of the boundary-crossing predicate and `s`, `e` of the two
endpoint containment tests), `_classify_intersection` follows the exact
priority order INSIDE / CROSSES / EXIT / ENTRY / default CROSSES, and
reversing the segment's endpoints (which swaps the containment flags and
keeps the crossing predicate, the line being the same point set) preserves
INSIDE and CROSSES and swaps ENTRY with EXIT. -/
theorem C2_classification_priority_and_reversal :
    ∀ c s e : Bool,
      (s = true → e = true →
        classify_intersection (some ⟨c, s, e⟩) = .INSIDE)
    ∧ (¬(s = true ∧ e = true) → c = true →
        classify_intersection (some ⟨c, s, e⟩) = .CROSSES)
    ∧ (c = false → s = true → e = false →
        classify_intersection (some ⟨c, s, e⟩) = .EXIT)
    ∧ (c = false → s = false → e = true →
        classify_intersection (some ⟨c, s, e⟩) = .ENTRY)
    ∧ (c = false → s = false → e = false →
        classify_intersection (some ⟨c, s, e⟩) = .CROSSES)
    ∧ (classify_intersection (some (reverseSegRow ⟨c, s, e⟩)) = .INSIDE ↔
        classify_intersection (some ⟨c, s, e⟩) = .INSIDE)
    ∧ (classify_intersection (some (reverseSegRow ⟨c, s, e⟩)) = .CROSSES ↔
        classify_intersection (some ⟨c, s, e⟩) = .CROSSES)
    ∧ (classify_intersection (some (reverseSegRow ⟨c, s, e⟩)) = .EXIT ↔
        classify_intersection (some ⟨c, s, e⟩) = .ENTRY)
    ∧ (classify_intersection (some (reverseSegRow ⟨c, s, e⟩)) = .ENTRY ↔
        classify_intersection (some ⟨c, s, e⟩) = .EXIT) := by
  decide

/-- Witness for C2 at a concrete row: both endpoints inside a part yields
INSIDE. -/
theorem C2_classification_priority_and_reversal_witness :
    classify_intersection (some ⟨false, true, true⟩) = .INSIDE :=
  (C2_classification_priority_and_reversal false true true).1 rfl rfl

/-- The not-ready error message of `get_connection`. -/
def notReadyMsg : String :=
  "SpatiaLite database not available. Call download() or use_local() first."

/-- **C8** — With a reference store that has never been attached or
downloaded (`local_path = None`), every query through the query service
fails with the typed `SpatiaLiteNotReadyError` and never produces an `ok`
result — in particular never an empty result list. -/
theorem C8_not_ready_is_typed_error (fsExists : String → Bool)
    (m : SpatiaLiteManager) (h : m.local_path = none)
    (run : String → List SegRow) (legs : List (ℕ × ℕ × ℤ))
    (runLeg : String → ℕ × ℕ × ℤ → List SegRow × List SegRow) :
    query_segment_airspaces fsExists m run = .error (.spatiaLiteNotReady notReadyMsg)
  ∧ analyze_route fsExists m legs runLeg = .error (.spatiaLiteNotReady notReadyMsg)
  ∧ (∀ results : List SegRow, query_segment_airspaces fsExists m run ≠ .ok results)
  ∧ (∀ results, analyze_route fsExists m legs runLeg ≠ .ok results) := by
  have hc : get_connection fsExists m = .error (.spatiaLiteNotReady notReadyMsg) := by
    simp [get_connection, is_ready, h, notReadyMsg]
  refine ⟨?_, ?_, ?_, ?_⟩ <;>
    simp [query_segment_airspaces, analyze_route, hc, Bind.bind, Except.bind]

/-- Witness for C8: a freshly constructed manager rejects a segment query
with the typed not-ready error. -/
theorem C8_not_ready_is_typed_error_witness :
    query_segment_airspaces (fun _ => false) initManager (fun _ => []) =
      .error (.spatiaLiteNotReady notReadyMsg) :=
  (C8_not_ready_is_typed_error (fun _ => false) initManager rfl (fun _ => [])
    [] (fun _ _ => ([], []))).1

/-- A view with two parts of the same airspace `TMA LYON` for one leg: the
first part's geometry intersects the leg's line, the second lies only in
the corridor buffer. -/
def dbC7 : List SegRow :=
  [⟨"TMA LYON", "TMA", "D", 1500, 4500, 1, 1, 10, true, true⟩,
   ⟨"TMA LYON", "TMA", "D", 1500, 4500, 2, 2, 10, false, true⟩]

/-- **C7 counterexample** — The direct-route and corridor identifier sets
of one leg are NOT disjoint when an airspace has several parts: with
`dbC7` at 3000 ft, both queries return identifier `TMA LYON` (from
different parts/geometries), refuting the claim as stated. -/
theorem C7_identifier_sets_not_disjoint :
    query_segment_ids dbC7 3000 = ["TMA LYON"]
  ∧ query_corridor_ids dbC7 3000 = ["TMA LYON"]
  ∧ ¬(∀ i ∈ query_segment_ids dbC7 3000, i ∉ query_corridor_ids dbC7 3000) := by
  decide

/-- **C7 (amended)** — For every leg, the direct-route and corridor result
sets are disjoint at the granularity of materialized rows (part/volume
geometries): no row selected by `_query_segment` is also selected by
`_query_corridor`, because the former requires the geometry to intersect
the leg's line and the latter requires it not to. -/
theorem C7_amended_row_disjoint (db : List SegRow) (altitude_ft : ℚ)
    (r : SegRow) (h : r ∈ query_segment_rows db altitude_ft) :
    r ∉ query_corridor_rows db altitude_ft := by
  simp only [query_segment_rows, query_corridor_rows, List.mem_filter,
    Bool.and_eq_true, Bool.not_eq_true', decide_eq_true_eq] at h ⊢
  intro hc
  simp_all

/-- Witness for C7 (amended): the first row of `dbC7` is a direct-route
row of its leg, hence not a corridor row. -/
theorem C7_amended_row_disjoint_witness :
    (⟨"TMA LYON", "TMA", "D", 1500, 4500, 1, 1, 10, true, true⟩ : SegRow) ∉
      query_corridor_rows dbC7 3000 :=
  C7_amended_row_disjoint dbC7 3000 _ (by decide)

/-- Every tile emitted by the `x`/`y` loop at a zoom level has a non-empty
feature list: the `if features:` gate never writes an empty tile. -/
theorem written_tiles_nonempty (queryTile : ℕ → ℕ → List Feature) (z : ℕ)
    (t : ℕ × ℕ × List Feature) (h : t ∈ written_tiles queryTile z) :
    t.2.2 ≠ [] := by
  simp only [written_tiles, List.mem_flatMap, List.mem_filterMap,
    List.mem_range] at h
  obtain ⟨x, -, y, -, hy⟩ := h
  by_cases hemp : (queryTile x y).isEmpty
  · simp [hemp] at hy
  · rw [if_neg (by simp [hemp])] at hy
    cases hy
    simpa [List.isEmpty_iff] using hemp

/-- **C9** — The bounding box of tile (z=0, x=0, y=0) is exactly
longitude [-180, 180] with the full Web-Mercator-valid latitude range:
its latitude-edge coefficients are ±1, i.e. the edges in degrees are
`±(180/π)·atan(sinh(π))` (longitude edges linear in tile x, latitude
edges through the inverse Gudermannian of tile y); and no tile with an
empty feature list is ever written, either by one zoom level's loop or
across the whole zoom-band table of `generate_all`. -/
theorem C9_tile0_bbox_and_sparse_tiles :
    tile_bbox 0 0 0 = ⟨-180, -1, 180, 1⟩
  ∧ Real.arctan (Real.sinh (((tile_bbox 0 0 0).lat_max_coeff : ℝ) * Real.pi)) =
      Real.arctan (Real.sinh Real.pi)
  ∧ Real.arctan (Real.sinh (((tile_bbox 0 0 0).lat_min_coeff : ℝ) * Real.pi)) =
      -Real.arctan (Real.sinh Real.pi)
  ∧ (∀ (queryTile : ℕ → ℕ → List Feature) (z : ℕ) (t : ℕ × ℕ × List Feature),
      t ∈ written_tiles queryTile z → t.2.2 ≠ [])
  ∧ (∀ (query : ℕ → Option (List String) → ℚ → ℕ → ℕ → List Feature)
      (t : ℕ × ℕ × ℕ × List Feature),
      t ∈ generate_all_written query → t.2.2.2 ≠ []) := by
  have hbox : tile_bbox 0 0 0 = ⟨-180, -1, 180, 1⟩ := by
    simp [tile_bbox]
    norm_num
  refine ⟨hbox, ?_, ?_, written_tiles_nonempty, ?_⟩
  · rw [hbox]
    norm_num
  · rw [hbox]
    push_cast
    rw [neg_one_mul, Real.sinh_neg, Real.arctan_neg]
  · intro query t ht
    simp only [generate_all_written, List.mem_flatMap, List.mem_map] at ht
    obtain ⟨cfg, -, dz, -, w, hw, hwt⟩ := ht
    have := written_tiles_nonempty _ _ _ hw
    subst hwt
    simpa using this

/-- Witness for C9's sparse-writing part: at zoom 0 with a query that
matches one feature, the single written tile indeed carries a non-empty
feature list. -/
theorem C9_tile0_bbox_and_sparse_tiles_witness :
    ((0, 0, [⟨1, "LFB", "TMA", "D", 0, 99999, "g"⟩]) :
        ℕ × ℕ × List Feature).2.2 ≠ [] :=
  C9_tile0_bbox_and_sparse_tiles.2.2.2.1
    (fun _ _ => [⟨1, "LFB", "TMA", "D", 0, 99999, "g"⟩]) 0 _ (by decide)

/-- `round` of an integer value is that integer. -/
theorem pyRound_intCast (z : ℤ) : pyRound (z : ℚ) = z := by
  simp [pyRound]

/-- `climb_dist_nm` of `_calc_intermediate`:
`ground_speed_kt * (|Δalt| / climb_rate_fpm) / 60`. -/
def seg_climb_dist (start end_ : CorrectedWaypoint) (cr gs : ℤ) : ℚ :=
  (gs : ℚ) * (pyAbs (end_.altitude_ft - start.altitude_ft) / (cr : ℚ)) / 60

/-- Unfolding of `_insert_intermediates` on a consecutive pair: the pair's
target altitude is the current waypoint's on the final leg and the next
waypoint's otherwise, and exactly the optional `_calc_intermediate`
result is inserted between the two. -/
theorem insert_intermediates_pair (hav : ℚ → ℚ → ℚ → ℚ → ℚ)
    (cr gs : ℤ) (w next : CorrectedWaypoint) (rest : List CorrectedWaypoint) :
    insert_intermediates hav cr gs (w :: next :: rest) =
      w :: ((calc_intermediate hav w next
              (if rest.isEmpty then w.altitude_ft else next.altitude_ft)
              rest.isEmpty cr gs).toList
        ++ insert_intermediates hav cr gs (next :: rest)) := by
  cases rest <;> simp [insert_intermediates]

/-- **C3** — For every consecutive pair of corrected waypoints, with a
positive climb rate: no intermediate waypoint is produced when
`|Δaltitude| < 100` ft; none when the required horizontal distance
`ground_speed_kt × (|Δalt| / climb_rate_fpm) / 60` reaches or exceeds the
computed segment distance (`hav`, standing for the haversine with Earth
radius 3440.065 NM); and exactly one — the inserted optional waypoint of
`insert_intermediates_pair` — when `|Δalt| ≥ 100` and that required
distance is strictly below the segment distance. -/
theorem C3_intermediate_synthesis_thresholds (hav : ℚ → ℚ → ℚ → ℚ → ℚ)
    (start end_ : CorrectedWaypoint) (target : ℚ) (isLast : Bool)
    (cr gs : ℤ) (hcr : 0 < cr) :
    (pyAbs (end_.altitude_ft - start.altitude_ft) < 100 →
      calc_intermediate hav start end_ target isLast cr gs = none)
  ∧ (hav start.latitude start.longitude end_.latitude end_.longitude ≤
        seg_climb_dist start end_ cr gs →
      calc_intermediate hav start end_ target isLast cr gs = none)
  ∧ (100 ≤ pyAbs (end_.altitude_ft - start.altitude_ft) →
      seg_climb_dist start end_ cr gs <
        hav start.latitude start.longitude end_.latitude end_.longitude →
      ∃ mid, calc_intermediate hav start end_ target isLast cr gs = some mid)
  ∧ (∀ rest, insert_intermediates hav cr gs (start :: end_ :: rest) =
      start :: ((calc_intermediate hav start end_
          (if rest.isEmpty then start.altitude_ft else end_.altitude_ft)
          rest.isEmpty cr gs).toList
        ++ insert_intermediates hav cr gs (end_ :: rest))) := by
  refine ⟨?_, ?_, ?_, fun rest => insert_intermediates_pair hav cr gs start end_ rest⟩
  · intro h
    simp [calc_intermediate, h]
  · intro h
    by_cases h1 : pyAbs (end_.altitude_ft - start.altitude_ft) < 100
    · simp [calc_intermediate, h1]
    · simp only [seg_climb_dist] at h
      simp [calc_intermediate, h1, h]
  · intro h1 h2
    simp only [seg_climb_dist] at h2
    simp [calc_intermediate, not_lt.2 h1, not_le.2 h2]

/-- A cruise waypoint used by the corrector witnesses. -/
def wpA : CorrectedWaypoint :=
  ⟨"CRUISE", 0, 0, 3000, "segment", false, 0⟩

/-- An arrival waypoint 1450 ft below `wpA`. -/
def wpB : CorrectedWaypoint :=
  ⟨"ARR", 1, 1, 1550, "arrival", false, 0⟩

/-- A nearby en-route waypoint only 50 ft above `wpA`. -/
def wpD : CorrectedWaypoint :=
  ⟨"P2", 1, 1, 3050, "segment", false, 0⟩

/-- A segment-distance function returning 85 NM — the value the code's
haversine (Earth radius 3440.065 NM) gives for (0,0)→(1,1) is ≈84.9 NM. -/
def havC5 : ℚ → ℚ → ℚ → ℚ → ℚ := fun _ _ _ _ => 85

/-- Witness for C3: a 50-ft altitude change produces no intermediate
waypoint. -/
theorem C3_intermediate_synthesis_thresholds_witness :
    calc_intermediate havC5 wpA wpD 3050 false 500 100 = none :=
  (C3_intermediate_synthesis_thresholds havC5 wpA wpD 3050 false 500 100
    (by norm_num)).1 (by norm_num [wpA, wpD, pyAbs])

/-- **C5 (amended)** — Every synthesized intermediate waypoint lies at the
fraction `climb_dist / total_dist` from the segment start on non-final
legs and at `1 - climb_dist / total_dist` (measured backward from the
segment end) on the final leg; it is named `CLIMB_<targetFt>`, or
`DESC_<targetFt>` on non-final legs, BUT a final-leg descent is named
`DESC_<arrivalFt>` after the END waypoint's altitude (the code uses
`end.altitude_ft` there), not after the target (current-waypoint) cruise
altitude; and it is tagged `is_intermediate` with an
`intermediate_climb`/`intermediate_desc` source. -/
theorem C5_amended_position_name_tag (hav : ℚ → ℚ → ℚ → ℚ → ℚ)
    (start end_ : CorrectedWaypoint) (target : ℚ) (isLast : Bool)
    (cr gs : ℤ) (mid : CorrectedWaypoint) (hcr : 0 < cr)
    (h : calc_intermediate hav start end_ target isLast cr gs = some mid) :
    (isLast = false →
      mid.latitude = start.latitude + (end_.latitude - start.latitude) *
        (seg_climb_dist start end_ cr gs /
          hav start.latitude start.longitude end_.latitude end_.longitude)
    ∧ mid.longitude = start.longitude + (end_.longitude - start.longitude) *
        (seg_climb_dist start end_ cr gs /
          hav start.latitude start.longitude end_.latitude end_.longitude))
  ∧ (isLast = true →
      mid.latitude = start.latitude + (end_.latitude - start.latitude) *
        (1 - seg_climb_dist start end_ cr gs /
          hav start.latitude start.longitude end_.latitude end_.longitude)
    ∧ mid.longitude = start.longitude + (end_.longitude - start.longitude) *
        (1 - seg_climb_dist start end_ cr gs /
          hav start.latitude start.longitude end_.latitude end_.longitude))
  ∧ (start.altitude_ft < end_.altitude_ft →
      mid.name = "CLIMB_" ++ toString (pyInt target))
  ∧ (¬start.altitude_ft < end_.altitude_ft → isLast = false →
      mid.name = "DESC_" ++ toString (pyInt target))
  ∧ (¬start.altitude_ft < end_.altitude_ft → isLast = true →
      mid.name = "DESC_" ++ toString (pyInt end_.altitude_ft))
  ∧ mid.is_intermediate = true
  ∧ mid.altitude_source = (if start.altitude_ft < end_.altitude_ft then
      "intermediate_climb" else "intermediate_desc") := by
  have hCD : ("CLIMB" : String) ≠ "DESC" := by decide
  unfold calc_intermediate at h
  by_cases h1 : pyAbs (end_.altitude_ft - start.altitude_ft) < 100
  · rw [if_pos h1] at h
    cases h
  rw [if_neg h1] at h
  by_cases h2 : hav start.latitude start.longitude end_.latitude end_.longitude ≤
      (gs : ℚ) * (pyAbs (end_.altitude_ft - start.altitude_ft) / (cr : ℚ)) / 60
  · rw [if_pos h2] at h
    cases h
  rw [if_neg h2] at h
  have hm := (Option.some.inj h).symm
  subst hm
  refine ⟨?_, ?_, ?_, ?_, ?_, rfl, ?_⟩
  · intro hL
    subst hL
    constructor <;> simp [seg_climb_dist]
  · intro hL
    subst hL
    constructor <;> simp [seg_climb_dist]
  · intro hlt
    simp [hlt, hCD]
  · intro hlt hL
    subst hL
    simp [hlt]
  · intro hlt hL
    subst hL
    simp [hlt]
  · by_cases hlt : start.altitude_ft < end_.altitude_ft <;> simp [hlt]

/-- The intermediate waypoint inserted on the final leg from `wpA` (cruise
3000 ft) to `wpB` (arrival 1550 ft) at 500 fpm / 100 kt over 85 NM. -/
def midW : CorrectedWaypoint :=
  ⟨"DESC_1550", 481/510, 481/510, 3000, "intermediate_desc", true,
    3000 / METERS_TO_FEET⟩

/-- Witness for C5 (amended): the final-leg descent point is named after
the arrival altitude 1550, not the 3000-ft target. -/
theorem C5_amended_position_name_tag_witness :
    midW.name = "DESC_" ++ toString (pyInt wpB.altitude_ft) :=
  ((C5_amended_position_name_tag havC5 wpA wpB 3000 true 500 100 midW
    (by norm_num)
    (by norm_num [calc_intermediate, havC5, wpA, wpB, midW, pyAbs, pyInt,
        pyRound, METERS_TO_FEET]
        rfl)).2.2.2.2.1)
    (by norm_num [wpA, wpB]) rfl

/-- **C5 counterexample** — On the final leg from cruise 3000 ft to
arrival 1550 ft the inserted waypoint is named `DESC_1550` (the arrival
altitude), not `DESC_3000`, although the target altitude of the final
leg — and the altitude the point is emitted at — is the current
waypoint's 3000 ft: the claim's naming rule fails on final-leg
descents. -/
theorem C5_counterexample_final_leg_name :
    ((insert_intermediates havC5 500 100 [wpA, wpB]).map (·.name)) =
      ["CRUISE", "DESC_1550", "ARR"]
  ∧ ((insert_intermediates havC5 500 100 [wpA, wpB]).map (·.altitude_ft)) =
      [3000, 3000, 1550]
  ∧ "DESC_1550" ≠ "DESC_" ++ toString (pyInt wpA.altitude_ft) := by
  refine ⟨?_, ?_, ?_⟩
  · norm_num [insert_intermediates, calc_intermediate, havC5, wpA, wpB,
      pyAbs, pyInt, pyRound, METERS_TO_FEET]
    rfl
  · norm_num [insert_intermediates, calc_intermediate, havC5, wpA, wpB,
      pyAbs, pyInt, pyRound, METERS_TO_FEET]
  · have : pyInt wpA.altitude_ft = 3000 := by
      norm_num [pyInt, wpA]
    rw [this]
    decide

/-- **C10** — Every synthesized intermediate waypoint carries the rounded
target altitude as its own altitude and `target / 3.28084` as its stored
original altitude in meters; combined with the pair-unfolding equation,
the target is the next waypoint's altitude on non-final legs and the
current waypoint's (cruise) altitude on the final leg — so a final-leg
descent point is emitted at the cruise altitude, not the arrival
altitude. -/
theorem C10_intermediate_carries_target_altitude (hav : ℚ → ℚ → ℚ → ℚ → ℚ)
    (cr gs : ℤ) (hcr : 0 < cr) :
    (∀ (start end_ : CorrectedWaypoint) (target : ℚ) (isLast : Bool)
        (mid : CorrectedWaypoint),
      calc_intermediate hav start end_ target isLast cr gs = some mid →
      mid.altitude_ft = ((pyRound target : ℤ) : ℚ)
    ∧ mid.original_altitude_m = target / METERS_TO_FEET)
  ∧ (∀ (start next : CorrectedWaypoint) (rest : List CorrectedWaypoint),
      insert_intermediates hav cr gs (start :: next :: rest) =
        start :: ((calc_intermediate hav start next
            (if rest.isEmpty then start.altitude_ft else next.altitude_ft)
            rest.isEmpty cr gs).toList
          ++ insert_intermediates hav cr gs (next :: rest))) := by
  refine ⟨?_, fun start next rest => insert_intermediates_pair hav cr gs start next rest⟩
  intro start end_ target isLast mid h
  unfold calc_intermediate at h
  by_cases h1 : pyAbs (end_.altitude_ft - start.altitude_ft) < 100
  · rw [if_pos h1] at h
    cases h
  rw [if_neg h1] at h
  by_cases h2 : hav start.latitude start.longitude end_.latitude end_.longitude ≤
      (gs : ℚ) * (pyAbs (end_.altitude_ft - start.altitude_ft) / (cr : ℚ)) / 60
  · rw [if_pos h2] at h
    cases h
  rw [if_neg h2] at h
  have hm := (Option.some.inj h).symm
  subst hm
  exact ⟨rfl, rfl⟩

/-- Witness for C10: the final-leg descent point of the `wpA`→`wpB` leg is
emitted at the rounded 3000-ft cruise target with original altitude
`3000 / 3.28084` m. -/
theorem C10_intermediate_carries_target_altitude_witness :
    midW.altitude_ft = ((pyRound (3000 : ℚ) : ℤ) : ℚ)
  ∧ midW.original_altitude_m = (3000 : ℚ) / METERS_TO_FEET :=
  (C10_intermediate_carries_target_altitude havC5 500 100 (by norm_num)).1
    wpA wpB 3000 true midW
    (by norm_num [calc_intermediate, havC5, wpA, wpB, midW, pyAbs, pyInt,
        pyRound, METERS_TO_FEET]
        rfl)

/-- The enumerate loop of `_assign_altitudes` maps position `k` of the
input to `assignWp` at running index `i + k`. -/
theorem assignGo_getElem? (total : ℕ) (dep arr : Option ℚ) (p m : ℤ) :
    ∀ (l : List WaypointIn) (i k : ℕ),
      (assignGo total dep arr p m i l)[k]? =
        (l[k]?).map (fun wp => assignWp total dep arr p m (i + k) wp) := by
  intro l
  induction l with
  | nil => intro i k; simp [assignGo]
  | cons w rest ih =>
      intro i k
      cases k with
      | zero => simp [assignGo]
      | succ k =>
          simp only [assignGo, List.getElem?_cons_succ, ih (i + 1) k]
          have h : i + 1 + k = i + (k + 1) := by omega
          rw [h]

/-- The loop emits one corrected waypoint per input waypoint. -/
theorem assignGo_length (total : ℕ) (dep arr : Option ℚ) (p m : ℤ) :
    ∀ (l : List WaypointIn) (i : ℕ),
      (assignGo total dep arr p m i l).length = l.length := by
  intro l
  induction l with
  | nil => intro i; simp [assignGo]
  | cons w rest ih => intro i; simp [assignGo, ih]

/-- **C4** — For every input of at least two waypoints: the first (resp.
last) corrected waypoint's altitude is `ground + pattern_alt_ft` (rounded
to a foot) when the departure (resp. arrival) ground elevation is
supplied; otherwise it is the imported altitude converted at
1 m = 3.28084 ft (rounded), replaced by `min_alt_ft` exactly when that
converted altitude is below 50 ft; and every interior waypoint keeps its
imported (converted, rounded) altitude, coordinates, name, and a
`segment` source tag. -/
theorem C4_altitude_assignment (wps : List WaypointIn) (dep arr : Option ℚ)
    (p m : ℤ) (h2 : 2 ≤ wps.length) :
    ((assign_altitudes wps dep arr p m).length = wps.length)
  ∧ (∀ g w, dep = some g → wps[0]? = some w →
      (assign_altitudes wps dep arr p m)[0]?.map (·.altitude_ft) =
        some ((pyRound (g + (p : ℚ)) : ℤ) : ℚ))
  ∧ (∀ w, dep = none → wps[0]? = some w →
      ¬w.altitude_m * METERS_TO_FEET < 50 →
      (assign_altitudes wps dep arr p m)[0]?.map (·.altitude_ft) =
        some ((pyRound (w.altitude_m * METERS_TO_FEET) : ℤ) : ℚ))
  ∧ (∀ w, dep = none → wps[0]? = some w →
      w.altitude_m * METERS_TO_FEET < 50 →
      (assign_altitudes wps dep arr p m)[0]?.map (·.altitude_ft) =
        some ((m : ℤ) : ℚ))
  ∧ (∀ g w, arr = some g → wps[wps.length - 1]? = some w →
      (assign_altitudes wps dep arr p m)[wps.length - 1]?.map (·.altitude_ft) =
        some ((pyRound (g + (p : ℚ)) : ℤ) : ℚ))
  ∧ (∀ w, arr = none → wps[wps.length - 1]? = some w →
      ¬w.altitude_m * METERS_TO_FEET < 50 →
      (assign_altitudes wps dep arr p m)[wps.length - 1]?.map (·.altitude_ft) =
        some ((pyRound (w.altitude_m * METERS_TO_FEET) : ℤ) : ℚ))
  ∧ (∀ w, arr = none → wps[wps.length - 1]? = some w →
      w.altitude_m * METERS_TO_FEET < 50 →
      (assign_altitudes wps dep arr p m)[wps.length - 1]?.map (·.altitude_ft) =
        some ((m : ℤ) : ℚ))
  ∧ (∀ i w, 0 < i → i < wps.length - 1 → wps[i]? = some w →
      (assign_altitudes wps dep arr p m)[i]? = some
        { name := w.name
          latitude := w.latitude
          longitude := w.longitude
          altitude_ft := ((pyRound (w.altitude_m * METERS_TO_FEET) : ℤ) : ℚ)
          altitude_source := "segment"
          is_intermediate := false
          original_altitude_m := w.altitude_m }) := by
  have hlast0 : wps.length - 1 ≠ 0 := by omega
  have hget : ∀ k, (assign_altitudes wps dep arr p m)[k]? =
      (wps[k]?).map (fun wp => assignWp wps.length dep arr p m k wp) := by
    intro k
    simpa using assignGo_getElem? wps.length dep arr p m wps 0 k
  refine ⟨?_, ?_, ?_, ?_, ?_, ?_, ?_, ?_⟩
  · simpa using assignGo_length wps.length dep arr p m wps 0
  · intro g w hdep hw
    rw [hget 0, hw, hdep]
    simp [assignWp]
  · intro w hdep hw hge
    rw [hget 0, hw, hdep]
    simp [assignWp, hge]
  · intro w hdep hw hlt
    rw [hget 0, hw, hdep]
    simp [assignWp, hlt, pyRound_intCast]
  · intro g w harr hw
    rw [hget (wps.length - 1), hw, harr]
    simp [assignWp, hlast0]
  · intro w harr hw hge
    rw [hget (wps.length - 1), hw, harr]
    simp [assignWp, hlast0, hge]
  · intro w harr hw hlt
    rw [hget (wps.length - 1), hw, harr]
    simp [assignWp, hlast0, hlt, pyRound_intCast]
  · intro i w hi0 hin hw
    rw [hget i, hw]
    simp [assignWp, Nat.pos_iff_ne_zero.mp hi0, Nat.ne_of_lt hin]

/-- The three-waypoint import used by the C4 witness: departure with
ground elevation 200 ft, a 1000 m cruise waypoint, and an arrival whose
imported altitude (10 m = 32.8 ft) is unusable. -/
def wpsW : List WaypointIn :=
  [⟨"LFPN", 48, 2, 0⟩, ⟨"MID", 485/10, 22/10, 1000⟩, ⟨"LFPO", 49, 24/10, 10⟩]

/-- Witness for C4: departure 200+1000 ft, interior keeps 1000 m = 3281 ft,
arrival falls back to the 1000 ft minimum. -/
theorem C4_altitude_assignment_witness :
    (assign_altitudes wpsW (some 200) none 1000 1000)[0]?.map (·.altitude_ft) =
      some ((pyRound ((200 : ℚ) + ((1000 : ℤ) : ℚ)) : ℤ) : ℚ)
  ∧ ((assign_altitudes wpsW (some 200) none 1000 1000)[1]? = some
      { name := "MID"
        latitude := 485/10
        longitude := 22/10
        altitude_ft := ((pyRound ((1000 : ℚ) * METERS_TO_FEET) : ℤ) : ℚ)
        altitude_source := "segment"
        is_intermediate := false
        original_altitude_m := 1000 })
  ∧ (assign_altitudes wpsW (some 200) none 1000 1000)[wpsW.length - 1]?.map
      (·.altitude_ft) = some (((1000 : ℤ) : ℚ)) := by
  refine ⟨?_, ?_, ?_⟩
  · exact (C4_altitude_assignment wpsW (some 200) none 1000 1000 (by norm_num [wpsW])).2.1
      200 ⟨"LFPN", 48, 2, 0⟩ rfl rfl
  · exact (C4_altitude_assignment wpsW (some 200) none 1000 1000 (by norm_num [wpsW])).2.2.2.2.2.2.2
      1 ⟨"MID", 485/10, 22/10, 1000⟩ (by norm_num) (by norm_num [wpsW]) rfl
  · exact (C4_altitude_assignment wpsW (some 200) none 1000 1000 (by norm_num [wpsW])).2.2.2.2.2.2.1
      ⟨"LFPO", 49, 24/10, 10⟩ rfl rfl (by norm_num [METERS_TO_FEET])

/-- The missing-floor default: `CAST('0' AS REAL) = 0`. -/
theorem castReal_default_floor : castReal "0" = 0 := by
  simp [castReal, show parseDec "0" = ⟨true, false, 0, 0, 0⟩ from by decide]

/-- The missing-ceiling default: `CAST('99999' AS REAL) = 99999`. -/
theorem castReal_default_ceiling : castReal "99999" = 99999 := by
  simp [castReal, show parseDec "99999" = ⟨true, false, 99999, 0, 0⟩ from by decide]

/-- One `Espace` table: a TMA. -/
def espW : List EspaceRow := [⟨1, "TMA PARIS", "TMA", "A"⟩]

/-- One `Partie` table. -/
def parW : List PartieRow := [⟨1, 1, "TMA PARIS 1"⟩]

/-- One `Volume` whose altitude texts are both missing. -/
def volW : List VolumeRow := [⟨1, 1, "", "", "H24"⟩]

/-- One `Geometrie` with a successfully built geometry. -/
def geoW : List GeometrieRow := [⟨1, 1, some "GEOM1"⟩]

/-- One `Volume` with a floor of 3000 (ft AMSL) and a ceiling recorded as
the flight-level number 115 — as the French register publishes
`PlafondRef = 'STD', PlafondVal = '115'` for a ceiling of FL 115. -/
def volX : List VolumeRow := [⟨1, 1, "3000", "115", "H24"⟩]

/-- The single view row of the `espW`/`parW`/`volX`/`geoW` store. -/
def rowX : AirspaceViewRow :=
  { partie_pk := 1
    espace_pk := 1
    espace_nom := "TMA PARIS"
    espace_type := "TMA"
    partie_nom := "TMA PARIS 1"
    volume_pk := 1
    altitude_floor_ft_amsl := castReal (coalesceNullif "3000" "0")
    altitude_ceiling_ft_amsl := castReal (coalesceNullif "115" "99999")
    classe := "A"
    horCode := "H24"
    conversion_status := "ok"
    geom_spatial := some "GEOM1" }

/-- **C1 counterexample** — the materialized view does not enforce
`floor ≤ ceiling`: the `CAST(... AS REAL)` conversion keeps the raw
source numbers, so a volume published with a floor of `3000` (ft AMSL)
and a ceiling of `115` (a flight level) yields a view row with
floor 3000 > ceiling 115, refuting the claim's `floor ≤ ceiling`
invariant. -/
theorem C1_counterexample_floor_above_ceiling :
    ((materialized_view espW parW volX geoW).map
        fun r => (r.altitude_floor_ft_amsl, r.altitude_ceiling_ft_amsl)) =
      [(3000, 115)]
  ∧ ¬(∀ r ∈ materialized_view espW parW volX geoW,
        r.altitude_floor_ft_amsl ≤ r.altitude_ceiling_ft_amsl) := by
  have h3000 : castReal "3000" = 3000 := by
    simp [castReal, show parseDec "3000" = ⟨true, false, 3000, 0, 0⟩ from by decide]
  have h115 : castReal "115" = 115 := by
    simp [castReal, show parseDec "115" = ⟨true, false, 115, 0, 0⟩ from by decide]
  constructor
  · simp [materialized_view, espW, parW, volX, geoW, coalesceNullif, h3000, h115]
  · intro hall
    have hmem : rowX ∈ materialized_view espW parW volX geoW := by
      simp [materialized_view, espW, parW, volX, geoW, rowX]
    have hle := hall rowX hmem
    rw [show rowX.altitude_floor_ft_amsl = 3000 by
          simp [rowX, coalesceNullif, h3000],
        show rowX.altitude_ceiling_ft_amsl = 115 by
          simp [rowX, coalesceNullif, h115]] at hle
    norm_num at hle

/-- **C1 (amended)** — Every row of the materialized view has a non-null
geometry (the `WHERE g.geom IS NOT NULL` filter) and carries the cast of
its volume's altitude texts with the null-handling defaults: a missing
floor text normalizes to 0 and a missing ceiling text to 99999.  The
`floor ≤ ceiling` ordering, however, is NOT established by the builder
(see the counterexample): the view keeps the raw cast values. -/
theorem C1_amended_view_row_invariants (espaces : List EspaceRow)
    (parties : List PartieRow) (volumes : List VolumeRow)
    (geometries : List GeometrieRow) (row : AirspaceViewRow)
    (h : row ∈ materialized_view espaces parties volumes geometries) :
    row.geom_spatial.isSome = true
  ∧ ∃ v, v ∈ volumes ∧ v.pk = row.volume_pk ∧ v.partie_pk = row.partie_pk
      ∧ row.altitude_floor_ft_amsl = castReal (coalesceNullif v.PlancherVal "0")
      ∧ row.altitude_ceiling_ft_amsl = castReal (coalesceNullif v.PlafondVal "99999")
      ∧ (v.PlancherVal = "" → row.altitude_floor_ft_amsl = 0)
      ∧ (v.PlafondVal = "" → row.altitude_ceiling_ft_amsl = 99999) := by
  simp only [materialized_view, List.mem_flatMap, List.mem_filterMap,
    List.mem_filter, Option.map_eq_some'] at h
  obtain ⟨p, hp, e, ⟨he, hepk⟩, v, ⟨hv, hvpk⟩, g, ⟨hg, hgpk⟩, gg, hgg, hrow⟩ := h
  subst hrow
  refine ⟨rfl, v, hv, rfl, by simpa using hvpk, rfl, rfl, ?_, ?_⟩
  · intro hempty
    simp [hempty, coalesceNullif, castReal_default_floor]
  · intro hempty
    simp [hempty, coalesceNullif, castReal_default_ceiling]

/-- The single view row of the `espW`/`parW`/`volW`/`geoW` store (both
altitude texts missing). -/
def rowW : AirspaceViewRow :=
  { partie_pk := 1
    espace_pk := 1
    espace_nom := "TMA PARIS"
    espace_type := "TMA"
    partie_nom := "TMA PARIS 1"
    volume_pk := 1
    altitude_floor_ft_amsl := castReal (coalesceNullif "" "0")
    altitude_ceiling_ft_amsl := castReal (coalesceNullif "" "99999")
    classe := "A"
    horCode := "H24"
    conversion_status := "ok"
    geom_spatial := some "GEOM1" }

/-- Witness for C1 (amended): the row built from a volume with missing
altitude texts has a geometry, floor 0 and ceiling 99999. -/
theorem C1_amended_view_row_invariants_witness :
    rowW.geom_spatial.isSome = true
  ∧ rowW.altitude_floor_ft_amsl = 0
  ∧ rowW.altitude_ceiling_ft_amsl = 99999 := by
  have hmem : rowW ∈ materialized_view espW parW volW geoW := by
    simp [materialized_view, espW, parW, volW, geoW, rowW]
  obtain ⟨hsome, v, hv, -, -, -, -, hfl, hce⟩ :=
    C1_amended_view_row_invariants espW parW volW geoW rowW hmem
  have hv' : v = ⟨1, 1, "", "", "H24"⟩ := by
    simpa [volW] using hv
  exact ⟨hsome, hfl (by simp [hv']), hce (by simp [hv'])⟩

/-- A services table holding one `Information` service for
`PARIS NORD` with one frequency for its EST sector, not linked
relationally to any airspace. -/
def db6 : List SFRow :=
  [⟨"PARIS NORD", "Information", some "123.450", some "25",
    some "SECTEUR EST", none⟩]

/-- **C6 counterexample** — The code splits on WHITESPACE TOKENS and
takes the FIRST token (`parts[0]`) as the parent name, not everything
before the last space: for the three-word SIV display name
`PARIS NORD EST` the claim's split would look services up under
`PARIS NORD` (and find the `SECTEUR EST` row of `db6`), but the engine
looks under `PARIS` and finds nothing. -/
theorem C6_counterexample_three_word_name :
    get_services db6 none (some "PARIS NORD EST") (some "SIV") = []
  ∧ get_services_specSplit db6 none (some "PARIS NORD EST") (some "SIV") =
      [⟨"PARIS NORD", "Information", [⟨"123.450", some "25"⟩]⟩]
  ∧ get_services db6 none (some "PARIS NORD EST") (some "SIV") ≠
      get_services_specSplit db6 none (some "PARIS NORD EST") (some "SIV") := by
  refine ⟨by decide, by decide, by decide⟩

/-- `stage3Rows` prefers the sector-matching rows and falls back to all
parent-name rows when none match (also when the parent lookup itself is
empty). -/
theorem stage3Rows_eq_cases (db : List SFRow) (parent st sector : String) :
    stage3Rows db parent st sector =
      (if ((nameRows db parent st).filter (sectorMatch sector)).isEmpty then
        nameRows db parent st
      else (nameRows db parent st).filter (sectorMatch sector)) := by
  simp only [stage3Rows]
  by_cases hall : (nameRows db parent st).isEmpty
  · have h0 : nameRows db parent st = [] := by
      simpa [List.isEmpty_iff] using hall
    simp [h0]
  · have h0 : (nameRows db parent st).isEmpty = false := by
      simpa using hall
    simp only [h0, Bool.not_false, if_true]
    by_cases hf : ((nameRows db parent st).filter (sectorMatch sector)).isEmpty
    · simp [hf]
    · have hf0 : ((nameRows db parent st).filter (sectorMatch sector)).isEmpty = false := by
        simpa using hf
      simp [hf0]

/-- **C6 (amended)** — When strategy 1 (the relational link) and
strategy 2 (the exact-name match, restricted to the service type implied
by SIV/TMA) both come up empty and the display name contains a space,
the engine takes the FIRST whitespace-separated token as the parent name
(which coincides with "everything before the last space" only for
two-word names) and the last token (upper-cased) as the sector suffix,
fetches all services under that parent name with the implied type, keeps
those whose sector-qualifier contains the suffix, and falls back to the
full parent-name row set when none match. -/
theorem C6_amended_first_token_parent (db : List SFRow) (pkOpt : Option ℕ)
    (nom : String) (ty : Option String)
    (hty : ty = some "SIV" ∨ ty = some "TMA")
    (h1 : stage1Rows db pkOpt = [])
    (hsp : strContainsChar nom ' ' = true)
    (hpar : (pySplit nom).headD nom ≠ nom)
    (h2 : nameRows db nom (service_type_for ty) = []) :
    get_services db pkOpt (some nom) ty =
      buildServices (stage3Rows db ((pySplit nom).headD nom)
        (service_type_for ty) (strUpper ((pySplit nom).getLastD nom)))
  ∧ stage3Rows db ((pySplit nom).headD nom) (service_type_for ty)
      (strUpper ((pySplit nom).getLastD nom)) =
      (if ((nameRows db ((pySplit nom).headD nom) (service_type_for ty)).filter
            (sectorMatch (strUpper ((pySplit nom).getLastD nom)))).isEmpty then
        nameRows db ((pySplit nom).headD nom) (service_type_for ty)
      else
        (nameRows db ((pySplit nom).headD nom) (service_type_for ty)).filter
          (sectorMatch (strUpper ((pySplit nom).getLastD nom)))) := by
  have hnom : nom ≠ "" := by
    rintro rfl
    exact absurd hsp (by decide)
  have htruthy : truthyStr (some nom) = true := by
    simp [truthyStr, hnom]
  have htyb : (ty == some "SIV" || ty == some "TMA") = true := by
    rcases hty with rfl | rfl <;> decide
  have hbne : (((pySplit nom).headD nom) != nom) = true := by
    simpa using hpar
  refine ⟨?_, stage3Rows_eq_cases db _ _ _⟩
  unfold get_services
  rw [h1]
  simp only [List.isEmpty_nil, Bool.true_and, htruthy, htyb, Bool.and_true,
    if_true, Option.getD_some, hsp, h2, hbne]

/-- A services table for the two-word witness: two `PARIS` Information
rows, one qualified for the NORD sector, one for the SUD sector. -/
def db6w : List SFRow :=
  [⟨"PARIS", "Information", some "121.200", some "25", some "SECTEUR SUD", none⟩,
   ⟨"PARIS", "Information", some "123.450", some "25", some "SECTEUR NORD", none⟩]

/-- Witness for C6 (amended): for `PARIS NORD` the engine resolves
through `stage3Rows` under the first-token parent `PARIS`. -/
theorem C6_amended_first_token_parent_witness :
    get_services db6w none (some "PARIS NORD") (some "SIV") =
      buildServices (stage3Rows db6w ((pySplit "PARIS NORD").headD "PARIS NORD")
        (service_type_for (some "SIV"))
        (strUpper ((pySplit "PARIS NORD").getLastD "PARIS NORD")))
  ∧ get_services db6w none (some "PARIS NORD") (some "SIV") =
      [⟨"PARIS", "Information", [⟨"123.450", some "25"⟩]⟩] :=
  ⟨(C6_amended_first_token_parent db6w none "PARIS NORD" (some "SIV")
      (Or.inl rfl) rfl (by decide) (by decide) (by decide)).1,
    by decide⟩

end SkyWeb
